import Mathlib

/-
Verification development for the positioning and collision engine of the
"A bit Racey" game (src/main.py). Scalars that are Python floats in the
source are embedded as exact rationals (ℚ); all arithmetic in the relevant
code paths is +, -, *, / and comparisons, so the rational embedding is
faithful up to floating-point rounding. Python division, which raises
ZeroDivisionError on a zero denominator, is embedded as an Option-valued
division.
-/

namespace ABitRacey

/-- The four window corners, each carrying its (x-multiplier, y-multiplier)
pair in {0,1} × {0,1}, mirroring the `Corner` enum. -/
inductive Corner
  | topLeft
  | topRight
  | bottomLeft
  | bottomRight
deriving DecidableEq, Repr

/-- The `(multiplier_x, multiplier_y)` value of a corner, as in `Corner.value`. -/
def Corner.value : Corner → ℚ × ℚ
  | .topLeft => (0, 0)
  | .topRight => (1, 0)
  | .bottomLeft => (0, 1)
  | .bottomRight => (1, 1)

/-- A pixel-anchored point: a stored offset (x, y) measured from the corner
`relative_to`, mirroring the `PixelsPoint` class. -/
structure PixelsPoint where
  x : ℚ
  y : ℚ
  relative_to : Corner
deriving DecidableEq, Repr

/-- Embedding of `PixelsPoint.resolve`. The window dimensions
(`outer_width`, `outer_height`) stand for `game.window_box().width/height`;
`width`/`height` are the entity dimensions passed by the caller (the Python
defaults of 0 are passed explicitly at call sites that rely on them). -/
def PixelsPoint.resolve (p : PixelsPoint) (outer_width outer_height : ℚ)
    (width height : ℚ) : ℚ × ℚ :=
  let multiplier_x := p.relative_to.value.1
  let multiplier_y := p.relative_to.value.2
  let base_x_coordinate := multiplier_x * outer_width
  let base_y_coordinate := multiplier_y * outer_height
  let x_offset0 := if multiplier_x ≠ 0 then -p.x else p.x
  let y_offset0 := if multiplier_y ≠ 0 then -p.y else p.y
  let x_offset := x_offset0 - width * multiplier_x
  let y_offset := y_offset0 - height * multiplier_y
  (base_x_coordinate + x_offset, base_y_coordinate + y_offset)

/-- Embedding of `PixelsPoint.move_right`: adjust the stored x offset,
with the sign flipped when anchored to a right corner. -/
def PixelsPoint.move_right (p : PixelsPoint) (pixels : ℚ) : PixelsPoint :=
  let x_corner := p.relative_to.value.1
  let pixel_movement := if x_corner ≠ 0 then -pixels else pixels
  { p with x := p.x + pixel_movement }

/-- Embedding of `PixelsPoint.move_left`. -/
def PixelsPoint.move_left (p : PixelsPoint) (pixels : ℚ) : PixelsPoint :=
  let x_corner := p.relative_to.value.1
  let pixel_movement := if x_corner ≠ 0 then pixels else -pixels
  { p with x := p.x + pixel_movement }

/-- Embedding of `PixelsPoint.move_down`. -/
def PixelsPoint.move_down (p : PixelsPoint) (pixels : ℚ) : PixelsPoint :=
  let y_corner := p.relative_to.value.2
  let pixel_movement := if y_corner ≠ 0 then -pixels else pixels
  { p with y := p.y + pixel_movement }

/-- Embedding of `PixelsPoint.move_up`. -/
def PixelsPoint.move_up (p : PixelsPoint) (pixels : ℚ) : PixelsPoint :=
  let y_corner := p.relative_to.value.2
  let pixel_movement := if y_corner ≠ 0 then pixels else -pixels
  { p with y := p.y + pixel_movement }

/-- Embedding of `PixelsPoint.move_to`: overwrite the stored offset so
that a later resolve against the same window reproduces the target
top-left coordinates. In the source the window dimensions are read from
the module-level `game`; they are the same window `resolve` reads. -/
def PixelsPoint.move_to (p : PixelsPoint) (target_coordinates : ℚ × ℚ)
    (outer_width outer_height : ℚ) (width height : ℚ) : PixelsPoint :=
  let target_x := target_coordinates.1
  let target_y := target_coordinates.2
  let multiplier_x := p.relative_to.value.1
  let multiplier_y := p.relative_to.value.2
  let base_x_coordinate := multiplier_x * outer_width
  let base_y_coordinate := multiplier_y * outer_height
  let x_difference0 := target_x - base_x_coordinate
  let y_difference0 := target_y - base_y_coordinate
  let x_difference := x_difference0 + width * multiplier_x
  let y_difference := y_difference0 + height * multiplier_y
  let new_x := if multiplier_x ≠ 0 then -x_difference else x_difference
  let new_y := if multiplier_y ≠ 0 then -y_difference else y_difference
  { p with x := new_x, y := new_y }

/-- A percentage-anchored point, mirroring `PercentagePoint` (the
construction-time assertions 0 ≤ x < 1 and 0 ≤ y < 1 are not needed by the
claims settled here and are left as side conditions of callers). -/
structure PercentagePoint where
  x : ℚ
  y : ℚ
  relative_to : Corner
deriving DecidableEq, Repr

/-- Embedding of `PercentagePoint.resolve`: scale the fractional offset by
the window dimensions and delegate to a `PixelsPoint` with the same corner. -/
def PercentagePoint.resolve (p : PercentagePoint) (outer_width outer_height : ℚ)
    (width height : ℚ) : ℚ × ℚ :=
  let x_pixels := p.x * outer_width
  let y_pixels := p.y * outer_height
  (PixelsPoint.mk x_pixels y_pixels p.relative_to).resolve
    outer_width outer_height width height

/-- Axis-aligned box (x1, y1, x2, y2), mirroring the `Box` class. -/
structure Box where
  x1 : ℚ
  y1 : ℚ
  x2 : ℚ
  y2 : ℚ
deriving DecidableEq, Repr

/-- Derived width, `x2 - x1`. -/
def Box.width (b : Box) : ℚ := b.x2 - b.x1

/-- Derived height, `y2 - y1`. -/
def Box.height (b : Box) : ℚ := b.y2 - b.y1

/-- The `top` property. -/
def Box.top (b : Box) : ℚ := b.y1

/-- The `bottom` property. -/
def Box.bottom (b : Box) : ℚ := b.y2

/-- The `left` property. -/
def Box.left (b : Box) : ℚ := b.x1

/-- The `right` property. -/
def Box.right (b : Box) : ℚ := b.x2

/-- Embedding of `Box.center`. -/
def Box.center (b : Box) : ℚ × ℚ :=
  (b.left + b.width / 2, b.top + b.height / 2)

/-- Embedding of `Box.is_inside`: containment in `outer_box` allowing up to
`allowed_margin` pixels of protrusion past each edge. -/
def Box.is_inside (b : Box) (outer_box : Box) (allowed_margin : ℚ) : Bool :=
  let is_within_x :=
    decide (outer_box.left - b.left ≤ allowed_margin) &&
    decide (b.right - outer_box.right ≤ allowed_margin)
  let is_within_y :=
    decide (outer_box.top - b.top ≤ allowed_margin) &&
    decide (b.bottom - outer_box.bottom ≤ allowed_margin)
  is_within_x && is_within_y

/-- Embedding of `Box.is_outside`: the separating-axis disjointness test. -/
def Box.is_outside (b : Box) (other_box : Box) : Bool :=
  let is_outside_x :=
    decide (b.right < other_box.left) || decide (b.left > other_box.right)
  let is_outside_y :=
    decide (b.bottom < other_box.top) || decide (b.top > other_box.bottom)
  is_outside_x || is_outside_y

/-- Embedding of `Velocity.on_tick`: move the owning position right by the
x velocity magnitude and down by the y one. -/
def velocity_on_tick (pos : PixelsPoint) (vx vy : ℚ) : PixelsPoint :=
  (pos.move_right vx).move_down vy

/-- Embedding of `GameObject.collision_box` for an object at `pos` of size
(width, height) in a window of size (W, H). -/
def collision_box (pos : PixelsPoint) (W H width height : ℚ) : Box :=
  let xy := pos.resolve W H width height
  Box.mk xy.1 xy.2 (xy.1 + width) (xy.2 + height)

theorem resolve_move_right (p : PixelsPoint) (d W H w h : ℚ) :
    (p.move_right d).resolve W H w h =
      ((p.resolve W H w h).1 + d, (p.resolve W H w h).2) := by
  obtain ⟨x, y, c⟩ := p
  cases c <;>
    simp [PixelsPoint.move_right, PixelsPoint.resolve, Corner.value] <;>
    ring

theorem resolve_move_left (p : PixelsPoint) (d W H w h : ℚ) :
    (p.move_left d).resolve W H w h =
      ((p.resolve W H w h).1 - d, (p.resolve W H w h).2) := by
  obtain ⟨x, y, c⟩ := p
  cases c <;>
    simp [PixelsPoint.move_left, PixelsPoint.resolve, Corner.value] <;>
    ring

theorem resolve_move_down (p : PixelsPoint) (d W H w h : ℚ) :
    (p.move_down d).resolve W H w h =
      ((p.resolve W H w h).1, (p.resolve W H w h).2 + d) := by
  obtain ⟨x, y, c⟩ := p
  cases c <;>
    simp [PixelsPoint.move_down, PixelsPoint.resolve, Corner.value] <;>
    ring

theorem resolve_move_up (p : PixelsPoint) (d W H w h : ℚ) :
    (p.move_up d).resolve W H w h =
      ((p.resolve W H w h).1, (p.resolve W H w h).2 - d) := by
  obtain ⟨x, y, c⟩ := p
  cases c <;>
    simp [PixelsPoint.move_up, PixelsPoint.resolve, Corner.value] <;>
    ring

theorem resolve_move_to (p : PixelsPoint) (t : ℚ × ℚ) (W H w h : ℚ) :
    (p.move_to t W H w h).resolve W H w h = t := by
  obtain ⟨x, y, c⟩ := p
  obtain ⟨tx, ty⟩ := t
  cases c <;>
    simp [PixelsPoint.move_to, PixelsPoint.resolve, Corner.value] <;>
    ring

theorem resolve_velocity_on_tick (p : PixelsPoint) (vx vy W H w h : ℚ) :
    (velocity_on_tick p vx vy).resolve W H w h =
      ((p.resolve W H w h).1 + vx, (p.resolve W H w h).2 + vy) := by
  unfold velocity_on_tick
  rw [resolve_move_down, resolve_move_right]

theorem collision_box_center (p : PixelsPoint) (W H w h : ℚ) :
    (collision_box p W H w h).center =
      ((p.resolve W H w h).1 + w / 2, (p.resolve W H w h).2 + h / 2) := by
  simp [collision_box, Box.center, Box.left, Box.top, Box.width, Box.height]

/-- C2: for every `PixelsPoint`, any corner, any stored offset, any entity
size and a fixed window size, `move_to` of a resolved value is the exact
algebraic inverse of `resolve`: resolving again reproduces the value. -/
theorem c2_move_to_resolve_round_trip (p : PixelsPoint) (W H w h : ℚ) :
    (p.move_to (p.resolve W H w h) W H w h).resolve W H w h =
      p.resolve W H w h :=
  resolve_move_to p (p.resolve W H w h) W H w h

/-- C9: `move_right(d)` adjusts the stored x offset by -d when the x
multiplier is 1 and by +d when it is 0; resolved coordinates change by
exactly +d for `move_right`, -d for `move_left`, +d (in y) for `move_down`
and -d for `move_up`; and the velocity tick task moves the resolved
position by exactly (vx, vy). -/
theorem c9_move_and_velocity_exact :
    (∀ (p : PixelsPoint) (d : ℚ),
      (p.move_right d).x =
        (if p.relative_to.value.1 ≠ 0 then p.x - d else p.x + d)) ∧
    (∀ (p : PixelsPoint) (d W H w h : ℚ),
      (p.move_right d).resolve W H w h =
        ((p.resolve W H w h).1 + d, (p.resolve W H w h).2)) ∧
    (∀ (p : PixelsPoint) (d W H w h : ℚ),
      (p.move_left d).resolve W H w h =
        ((p.resolve W H w h).1 - d, (p.resolve W H w h).2)) ∧
    (∀ (p : PixelsPoint) (d W H w h : ℚ),
      (p.move_down d).resolve W H w h =
        ((p.resolve W H w h).1, (p.resolve W H w h).2 + d)) ∧
    (∀ (p : PixelsPoint) (d W H w h : ℚ),
      (p.move_up d).resolve W H w h =
        ((p.resolve W H w h).1, (p.resolve W H w h).2 - d)) ∧
    (∀ (p : PixelsPoint) (vx vy W H w h : ℚ),
      (velocity_on_tick p vx vy).resolve W H w h =
        ((p.resolve W H w h).1 + vx, (p.resolve W H w h).2 + vy)) := by
  refine ⟨?_, resolve_move_right, resolve_move_left,
    resolve_move_down, resolve_move_up,
    fun p vx vy W H w h => resolve_velocity_on_tick p vx vy W H w h⟩
  intro p d
  by_cases hm : p.relative_to.value.1 ≠ 0 <;>
    simp [PixelsPoint.move_right, hm] <;> ring

/-- C5: `is_inside` is the four-edge margin test, with the documented
examples: (0,0,10,10) in (0,0,9,9) is inside with margin 1 and not with
margin 0. -/
theorem c5_is_inside_margin_semantics :
    (∀ (a b : Box) (m : ℚ),
      a.is_inside b m = true ↔
        (b.left - a.left ≤ m ∧ a.right - b.right ≤ m ∧
         b.top - a.top ≤ m ∧ a.bottom - b.bottom ≤ m)) ∧
    (Box.mk 0 0 10 10).is_inside (Box.mk 0 0 9 9) 1 = true ∧
    (Box.mk 0 0 10 10).is_inside (Box.mk 0 0 9 9) 0 = false := by
  refine ⟨?_, ?_, ?_⟩
  · intro a b m
    simp [Box.is_inside, and_assoc]
  · simp [Box.is_inside, Box.left, Box.right, Box.top, Box.bottom]
    norm_num
  · simp [Box.is_inside, Box.left, Box.right, Box.top, Box.bottom]
    norm_num

/-- C6: `is_outside` is the separating-axis disjointness test, with the
documented examples: (0,0,10,10) is outside (20,20,30,30) and is not
outside (5,5,15,15). -/
theorem c6_is_outside_disjointness :
    (∀ (a b : Box),
      a.is_outside b = true ↔
        (a.right < b.left ∨ a.left > b.right ∨
         a.bottom < b.top ∨ a.top > b.bottom)) ∧
    (Box.mk 0 0 10 10).is_outside (Box.mk 20 20 30 30) = true ∧
    (Box.mk 0 0 10 10).is_outside (Box.mk 5 5 15 15) = false := by
  refine ⟨?_, ?_, ?_⟩
  · intro a b
    simp [Box.is_outside, or_assoc]
  · simp [Box.is_outside, Box.left, Box.right, Box.top, Box.bottom]
    norm_num
  · simp [Box.is_outside, Box.left, Box.right, Box.top, Box.bottom]
    norm_num

/-- The session-ending state touched by `Game.trigger_crash`: the
`has_died` flag plus a count of how many times the crash transition has
been invoked this frame (the blocking end-screen draw is a side effect
outside the modelled state). -/
structure CrashState where
  has_died : Bool
  invocations : Nat
deriving DecidableEq, Repr

/-- Embedding of `Game.trigger_crash`: show the end screen (side effect)
and set `has_died`; the invocation counter records each call. -/
def trigger_crash (c : CrashState) : CrashState :=
  { has_died := true, invocations := c.invocations + 1 }

/-- Embedding of `GameObject.is_within_window` for a player at box
`playerBox` in window box `window`. -/
def is_within_window (playerBox window : Box) (allowed_margin : ℚ) : Bool :=
  playerBox.is_inside window allowed_margin

/-- Embedding of `Car.check_collision_with_window_edge`: margin is half the
half of the player width; crash when the collision box is not within the window. -/
def check_collision_with_window_edge (playerBox window : Box) (width : ℚ)
    (c : CrashState) : CrashState :=
  let allowed_margin := width / 2
  if is_within_window playerBox window allowed_margin then c
  else trigger_crash c

/-- A game object as seen by the pairwise collision scan: an identity (the
Python `==` on objects is identity), the solidity flag and the current
collision box. -/
structure Obj where
  id : Nat
  is_solid : Bool
  box : Box
deriving DecidableEq, Repr

/-- One iteration of the loop body of
`Car.check_collision_with_other_objects`: skip non-solid objects, skip
non-overlapping ones, skip the car itself, and otherwise trigger the crash. -/
def collision_step (self_id : Nat) (playerBox : Box) (acc : CrashState)
    (object : Obj) : CrashState :=
  if !object.is_solid then acc
  else if playerBox.is_outside object.box then acc
  else if object.id == self_id then acc
  else trigger_crash acc

/-- Embedding of `Car.check_collision_with_other_objects`: the loop over
`game.objects`. -/
def check_collision_with_other_objects (self_id : Nat) (playerBox : Box)
    (objects : List Obj) (c : CrashState) : CrashState :=
  objects.foldl (collision_step self_id playerBox) c

/-- The condition under which the loop body triggers the crash for one
object. -/
def collides_with (self_id : Nat) (playerBox : Box) (object : Obj) : Bool :=
  object.is_solid && !playerBox.is_outside object.box && object.id != self_id

/-- Crash-transition invocations across one frame of the two car
collision tick tasks, which run in this order starting from a live
session. -/
def frame_crash_invocations (playerBox window : Box) (width : ℚ)
    (self_id : Nat) (objects : List Obj) : Nat :=
  (check_collision_with_other_objects self_id playerBox objects
    (check_collision_with_window_edge playerBox window width
      (CrashState.mk false 0))).invocations

theorem collision_step_invocations (self_id : Nat) (playerBox : Box)
    (c : CrashState) (o : Obj) :
    (collision_step self_id playerBox c o).invocations =
      c.invocations + (if collides_with self_id playerBox o then 1 else 0) := by
  unfold collision_step collides_with trigger_crash
  cases hs : o.is_solid <;> cases ho : playerBox.is_outside o.box <;>
    by_cases hid : o.id = self_id <;> simp [hs, ho, hid]

theorem collision_foldl_invocations (self_id : Nat) (playerBox : Box)
    (objects : List Obj) (c : CrashState) :
    (objects.foldl (collision_step self_id playerBox) c).invocations =
      c.invocations + objects.countP (collides_with self_id playerBox) := by
  induction objects generalizing c with
  | nil => simp
  | cons o rest ih =>
    rw [List.foldl_cons, ih, List.countP_cons, collision_step_invocations]
    omega

theorem collision_step_died_of_died (self_id : Nat) (playerBox : Box)
    (c : CrashState) (o : Obj) (h : c.has_died = true) :
    (collision_step self_id playerBox c o).has_died = true := by
  unfold collision_step trigger_crash
  cases hs : o.is_solid <;> cases ho : playerBox.is_outside o.box <;>
    cases hid : (o.id == self_id) <;> simp [hs, ho, hid, h]

theorem collision_foldl_died_of_died (self_id : Nat) (playerBox : Box)
    (objects : List Obj) (c : CrashState) (h : c.has_died = true) :
    (objects.foldl (collision_step self_id playerBox) c).has_died = true := by
  induction objects generalizing c with
  | nil => simpa
  | cons o rest ih =>
    rw [List.foldl_cons]
    exact ih _ (collision_step_died_of_died self_id playerBox c o h)

theorem collision_step_died_of_collides (self_id : Nat) (playerBox : Box)
    (c : CrashState) (o : Obj) (h : collides_with self_id playerBox o = true) :
    (collision_step self_id playerBox c o).has_died = true := by
  unfold collides_with at h
  simp only [Bool.and_eq_true, bne_iff_ne, Bool.not_eq_true'] at h
  unfold collision_step trigger_crash
  simp [h.1.1, h.1.2, h.2]

theorem collision_foldl_died_of_mem (self_id : Nat) (playerBox : Box)
    (objects : List Obj) (c : CrashState) (o : Obj) (hmem : o ∈ objects)
    (h : collides_with self_id playerBox o = true) :
    (objects.foldl (collision_step self_id playerBox) c).has_died = true := by
  induction objects generalizing c with
  | nil => cases hmem
  | cons a rest ih =>
    rw [List.foldl_cons]
    rcases List.mem_cons.mp hmem with heq | hrest
    · subst heq
      exact collision_foldl_died_of_died self_id playerBox rest _
        (collision_step_died_of_collides self_id playerBox c o h)
    · exact ih _ hrest

/-- C1 counterexample: for the player box with left edge 280 and right edge
320 (width 40), vertically within the 300-pixel window, with margin 20, the
overflow past the right edge is exactly 20 = margin, so `is_inside` returns
true (the test is non-strict) and the window-edge check triggers no crash
at all — not one crash as the claim states. -/
theorem c1_counterexample :
    (Box.mk 280 100 320 140).is_inside (Box.mk 0 0 300 300) 20 = true ∧
    (check_collision_with_window_edge (Box.mk 280 100 320 140)
      (Box.mk 0 0 300 300) 40 (CrashState.mk false 0)).invocations = 0 := by
  constructor
  · simp [Box.is_inside, Box.left, Box.right, Box.top, Box.bottom]
    norm_num
  · simp [check_collision_with_window_edge, is_within_window,
      Box.is_inside, Box.left, Box.right, Box.top, Box.bottom]
    norm_num

/-- C1 amended: at x = 280 the overflow equals the margin and the box is
still inside (no crash); the crash fires once the overflow exceeds the
margin, e.g. for the player box with left edge 281 (right edge 321):
`is_inside` of the window box is false and the window-edge check triggers
the crash transition exactly once. -/
theorem c1_amended_edge_crash :
    (Box.mk 281 100 321 140).is_inside (Box.mk 0 0 300 300) 20 = false ∧
    (check_collision_with_window_edge (Box.mk 281 100 321 140)
      (Box.mk 0 0 300 300) 40 (CrashState.mk false 0)).invocations = 1 ∧
    (check_collision_with_window_edge (Box.mk 281 100 321 140)
      (Box.mk 0 0 300 300) 40 (CrashState.mk false 0)).has_died = true := by
  have hfalse : (Box.mk 281 100 321 140).is_inside (Box.mk 0 0 300 300) 20
      = false := by
    simp [Box.is_inside, Box.left, Box.right, Box.top, Box.bottom]
    norm_num
  refine ⟨hfalse, ?_, ?_⟩ <;>
    · rw [check_collision_with_window_edge]
      simp only [is_within_window]
      norm_num [hfalse, trigger_crash]

/-- C8 counterexample: a frame in which the player overlaps two distinct
solid blocks while staying inside the window invokes the crash transition
twice — the objects loop has no early exit and `trigger_crash` has no
once-per-frame guard — contradicting the at-most-once claim. -/
theorem c8_counterexample :
    frame_crash_invocations (Box.mk 100 100 140 140) (Box.mk 0 0 300 300) 40 0
      [Obj.mk 0 true (Box.mk 100 100 140 140),
       Obj.mk 1 true (Box.mk 100 100 150 150),
       Obj.mk 2 true (Box.mk 90 90 120 120)] = 2 ∧
    ¬ (frame_crash_invocations (Box.mk 100 100 140 140) (Box.mk 0 0 300 300) 40 0
      [Obj.mk 0 true (Box.mk 100 100 140 140),
       Obj.mk 1 true (Box.mk 100 100 150 150),
       Obj.mk 2 true (Box.mk 90 90 120 120)] ≤ 1) := by
  have h : frame_crash_invocations (Box.mk 100 100 140 140) (Box.mk 0 0 300 300) 40 0
      [Obj.mk 0 true (Box.mk 100 100 140 140),
       Obj.mk 1 true (Box.mk 100 100 150 150),
       Obj.mk 2 true (Box.mk 90 90 120 120)] = 2 := by
    rw [frame_crash_invocations, check_collision_with_other_objects,
      collision_foldl_invocations]
    rw [check_collision_with_window_edge]
    simp only [is_within_window]
    rw [if_pos]
    · simp only [List.countP_cons, List.countP_nil, collides_with]
      norm_num [Box.is_outside, Box.left, Box.right, Box.top, Box.bottom]
    · simp [Box.is_inside, Box.left, Box.right, Box.top, Box.bottom]
      norm_num
  exact ⟨h, by omega⟩

/-- C8 amended: the crash transition is not deduplicated within a frame.
Across the two car collision tick tasks it is invoked exactly once if
the window-edge test fails, plus once for every solid, overlapping object
other than the car itself — so simultaneous violations each invoke it. -/
theorem c8_amended_crash_count (playerBox window : Box) (width : ℚ)
    (self_id : Nat) (objects : List Obj) :
    frame_crash_invocations playerBox window width self_id objects =
      (if playerBox.is_inside window (width / 2) then 0 else 1) +
        objects.countP (collides_with self_id playerBox) := by
  rw [frame_crash_invocations, check_collision_with_other_objects,
    collision_foldl_invocations, check_collision_with_window_edge]
  simp only [is_within_window]
  by_cases h : playerBox.is_inside window (width / 2) = true
  · simp [h]
  · simp only [Bool.not_eq_true] at h
    simp [h, trigger_crash]

/-- C8 amended witness: on the same two-blocks frame the closed-form count
from the amended claim is the observed 2 invocations. -/
theorem c8_amended_crash_count_witness :
    frame_crash_invocations (Box.mk 100 100 140 140) (Box.mk 0 0 300 300) 40 0
      [Obj.mk 0 true (Box.mk 100 100 140 140),
       Obj.mk 1 true (Box.mk 100 100 150 150),
       Obj.mk 2 true (Box.mk 90 90 120 120)] =
      (if (Box.mk 100 100 140 140).is_inside (Box.mk 0 0 300 300) (40 / 2)
        then 0 else 1) +
        ([Obj.mk 0 true (Box.mk 100 100 140 140),
          Obj.mk 1 true (Box.mk 100 100 150 150),
          Obj.mk 2 true (Box.mk 90 90 120 120)].countP
            (collides_with 0 (Box.mk 100 100 140 140))) :=
  c8_amended_crash_count (Box.mk 100 100 140 140) (Box.mk 0 0 300 300) 40 0
    [Obj.mk 0 true (Box.mk 100 100 140 140),
     Obj.mk 1 true (Box.mk 100 100 150 150),
     Obj.mk 2 true (Box.mk 90 90 120 120)]

/-- Embedding of the `solid` parameter of `GameObject.__init__`, whose
Python default is `solid=True`; `none` stands for the caller not passing
the argument. -/
def gameObject_is_solid (solid : Option Bool) : Bool := solid.getD true

/-- The FPS counter is constructed by `FPSCounter.__init__` through
`super().__init__(texture=texture)` with no solidity argument, so it gets
the `GameObject` default. -/
def fpsCounter_is_solid : Bool := gameObject_is_solid none

/-- C10: every `GameObject` built without an explicit solidity argument is
solid; in particular the FPS-counter HUD entity is solid, so whenever the
collision box of the player overlaps the box of the FPS counter, the entity-entity
collision scan triggers the crash transition (the session is marked dead). -/
theorem c10_fps_counter_is_solid_and_crashes
    (playerBox fpsBox : Box) (self_id fps_id : Nat) (objects : List Obj)
    (c : CrashState)
    (hmem : Obj.mk fps_id fpsCounter_is_solid fpsBox ∈ objects)
    (hid : fps_id ≠ self_id)
    (hoverlap : playerBox.is_outside fpsBox = false) :
    gameObject_is_solid none = true ∧
    fpsCounter_is_solid = true ∧
    (check_collision_with_other_objects self_id playerBox objects c).has_died
      = true := by
  refine ⟨rfl, rfl, ?_⟩
  rw [check_collision_with_other_objects]
  apply collision_foldl_died_of_mem self_id playerBox objects c _ hmem
  simp [collides_with, fpsCounter_is_solid, gameObject_is_solid, hoverlap, hid]

/-- C10 witness: a concrete frame in which the player box (0,0,10,10)
overlaps the solid FPS counter box (5,5,15,15), so the scan marks the
session dead. -/
theorem c10_witness :
    (Obj.mk 1 fpsCounter_is_solid (Box.mk 5 5 15 15) ∈
      [Obj.mk 1 fpsCounter_is_solid (Box.mk 5 5 15 15)]) ∧
    (1 : Nat) ≠ 0 ∧
    (Box.mk 0 0 10 10).is_outside (Box.mk 5 5 15 15) = false ∧
    (check_collision_with_other_objects 0 (Box.mk 0 0 10 10)
      [Obj.mk 1 fpsCounter_is_solid (Box.mk 5 5 15 15)]
      (CrashState.mk false 0)).has_died = true := by
  have hoverlap : (Box.mk 0 0 10 10).is_outside (Box.mk 5 5 15 15) = false := by
    simp [Box.is_outside, Box.left, Box.right, Box.top, Box.bottom]
    norm_num
  exact ⟨List.mem_singleton.mpr rfl, by omega, hoverlap,
    (c10_fps_counter_is_solid_and_crashes (Box.mk 0 0 10 10) (Box.mk 5 5 15 15)
      0 1 [Obj.mk 1 fpsCounter_is_solid (Box.mk 5 5 15 15)]
      (CrashState.mk false 0) (List.mem_singleton.mpr rfl) (by omega)
      hoverlap).2.2⟩

/-- Python float division, which raises ZeroDivisionError on a zero
denominator, embedded as an Option-valued division. -/
def pydiv (a b : ℚ) : Option ℚ := if b = 0 then none else some (a / b)

/-- Embedding of `GameObject.calculate_center_bounds`: the box of valid
center positions, padded inward by half the object width and height. -/
def calculate_center_bounds (width height parent_width parent_height : ℚ) :
    Box :=
  let x_padding := width / 2
  let y_padding := height / 2
  Box.mk (0 + x_padding) (0 + y_padding)
    (parent_width - x_padding) (parent_height - y_padding)

/-- Embedding of `GameObject.calculate_position_percentage`: the center of
the collision box as a fraction of the bounding box, `none` when a bounds
dimension is zero (Python raises ZeroDivisionError there). -/
def calculate_position_percentage (box : Box) (bounds : Box) :
    Option (ℚ × ℚ) := do
  let center := box.center
  let percentage_x ← pydiv (center.1 - bounds.left) bounds.width
  let percentage_y ← pydiv (center.2 - bounds.top) bounds.height
  pure (percentage_x, percentage_y)

/-- Embedding of `GameObject.map_relative_position_to_box`. -/
def map_relative_position_to_box (position_percentage : ℚ × ℚ)
    (new_center_point_bounds : Box) : ℚ × ℚ :=
  let limit := new_center_point_bounds
  (limit.left + limit.width * position_percentage.1,
   limit.top + limit.height * position_percentage.2)

/-- Embedding of `LinearPositionScaling.get_new_position`. `W H` are the
current window dimensions read by `collision_box` at event time (the
surface already has the new size); `old_w old_h` come from
`event.old_dimensions`, and `new_w new_h` from `event.w`, `event.h`. -/
def get_new_position (pos : PixelsPoint) (width height : ℚ)
    (W H old_w old_h new_w new_h : ℚ) : Option (ℚ × ℚ) := do
  let old_center_point_bounds :=
    calculate_center_bounds width height old_w old_h
  let position_percentage ←
    calculate_position_percentage (collision_box pos W H width height)
      old_center_point_bounds
  let new_center_point_bounds :=
    calculate_center_bounds width height new_w new_h
  let new_center :=
    map_relative_position_to_box position_percentage new_center_point_bounds
  pure (new_center.1 - width / 2, new_center.2 - height / 2)

/-- Embedding of `WindowResizeHandler.handle_window_resize` with the
`LinearPositionScaling` strategy: compute the new top-left coordinate and
move the point of the object there (the synchronous draw does not touch the
modelled state). An exception in the position computation aborts the whole
handler, so no move happens. -/
def handle_window_resize (pos : PixelsPoint) (width height : ℚ)
    (W H old_w old_h new_w new_h : ℚ) : Option PixelsPoint := do
  let new_position ← get_new_position pos width height W H old_w old_h new_w new_h
  pure (pos.move_to new_position W H width height)

theorem center_bounds_width (width height pw ph : ℚ) :
    (calculate_center_bounds width height pw ph).width = pw - width := by
  simp [calculate_center_bounds, Box.width]
  ring

theorem center_bounds_height (width height pw ph : ℚ) :
    (calculate_center_bounds width height pw ph).height = ph - height := by
  simp [calculate_center_bounds, Box.height]
  ring

theorem calculate_position_percentage_none_of_zero_width (box bounds : Box)
    (h : bounds.width = 0) : calculate_position_percentage box bounds = none := by
  simp [calculate_position_percentage, pydiv, h]

theorem calculate_position_percentage_none_of_zero_height (box bounds : Box)
    (h : bounds.height = 0) : calculate_position_percentage box bounds = none := by
  by_cases hw : bounds.width = 0 <;>
    simp [calculate_position_percentage, pydiv, h, hw]

/-- C3 counterexample: an entity exactly as wide as the old window (width
300, old window 300×300, resized to 400×400). The old center-bounds box
has zero width, the fraction computation divides by zero, and the whole
resize handler aborts with a division error (`none`) — it does not skip
the axis and leave the coordinate unchanged. -/
theorem c3_counterexample :
    handle_window_resize (PixelsPoint.mk 0 100 Corner.topLeft) 300 40
      400 400 300 300 400 400 = none ∧
    handle_window_resize (PixelsPoint.mk 0 100 Corner.topLeft) 300 40
      400 400 300 300 400 400 ≠
      some (PixelsPoint.mk 0 100 Corner.topLeft) := by
  have h : handle_window_resize (PixelsPoint.mk 0 100 Corner.topLeft) 300 40
      400 400 300 300 400 400 = none := by
    rw [handle_window_resize, get_new_position,
      calculate_position_percentage_none_of_zero_width]
    · rfl
    · rw [center_bounds_width]
      norm_num
  exact ⟨h, by rw [h]; exact fun hc => Option.noConfusion hc⟩

/-- C3 amended: the resize handler performs no degenerate-bounds
detection. Whenever the entity width equals the old window width, or its
height equals the old window height (zero-width or zero-height old
center-bounds box), the fraction computation divides by zero and the whole
reposition fails with a division error; no skip-and-keep-coordinate
behavior exists in the code. -/
theorem c3_amended_no_detection (pos : PixelsPoint)
    (width height W H old_w old_h new_w new_h : ℚ)
    (hdeg : width = old_w ∨ height = old_h) :
    handle_window_resize pos width height W H old_w old_h new_w new_h
      = none := by
  rcases hdeg with hw | hh
  · rw [handle_window_resize, get_new_position,
      calculate_position_percentage_none_of_zero_width]
    · rfl
    · rw [center_bounds_width, hw, sub_self]
  · rw [handle_window_resize, get_new_position,
      calculate_position_percentage_none_of_zero_height]
    · rfl
    · rw [center_bounds_height, hh, sub_self]

/-- C3 amended witness: the 300-wide entity in the 300-wide old window
makes the handler fail with a division error. -/
theorem c3_amended_no_detection_witness :
    ((300 : ℚ) = 300 ∨ (40 : ℚ) = 300) ∧
    handle_window_resize (PixelsPoint.mk 0 100 Corner.topLeft) 300 40
      400 400 300 300 400 400 = none :=
  ⟨Or.inl rfl,
    c3_amended_no_detection (PixelsPoint.mk 0 100 Corner.topLeft)
      300 40 400 400 300 300 400 400 (Or.inl rfl)⟩

/-- A held movement direction, one of the values pushed onto
`Car.pressed_directions` by the key-action callbacks. -/
inductive Direction
  | left
  | right
deriving DecidableEq, Repr

/-- The player state touched by the movement tick tasks of the car: the
position point, the `Velocity` magnitudes and its base speed (5 for the
car), the pressed-directions stack and the insertion-ordered movement
targets (finger id paired with a percentage point). -/
structure CarState where
  position : PixelsPoint
  vx : ℚ
  vy : ℚ
  base_speed : ℚ
  pressed_directions : List Direction
  movement_targets : List (Nat × PercentagePoint)
deriving DecidableEq, Repr

/-- The `Velocity.on_tick` task attached to the car. -/
def CarState.velocity_tick (s : CarState) : CarState :=
  { s with position := velocity_on_tick s.position s.vx s.vy }

/-- Embedding of `Car.set_velocity_from_keypresses`: the last-pressed key
takes priority; an empty stack zeroes the x velocity. `shove_x(m)` sets
the x velocity to `base_speed * m`. -/
def CarState.set_velocity_from_keypresses (s : CarState) : CarState :=
  match s.pressed_directions.getLast? with
  | none => { s with vx := 0 }
  | some Direction.left => { s with vx := s.base_speed * (-1) }
  | some Direction.right => { s with vx := s.base_speed * 1 }

/-- Embedding of `Car.move_towards_movement_target` for a window of size
(W, H) and a car of size (w, h). Key presses take priority; otherwise the
last-added target is chased, snapping the center directly onto the target
x when within `base_speed` pixels. The target resolves with the Python
default entity size of zero. -/
def CarState.move_towards_movement_target (W H w h : ℚ) (s : CarState) :
    CarState :=
  match s.movement_targets.getLast? with
  | none => s
  | some last_touched =>
    if s.pressed_directions ≠ [] then s
    else
      let target_coordinates := last_touched.2.resolve W H 0 0
      let our_coordinates := (collision_box s.position W H w h).center
      let pixels_difference := target_coordinates.1 - our_coordinates.1
      if |pixels_difference| ≤ s.base_speed then
        let old_y := (s.position.resolve W H w h).2
        let move_to_x := target_coordinates.1 - w / 2
        { s with position := s.position.move_to (move_to_x, old_y) W H w h }
      else if pixels_difference > 0 then { s with vx := s.base_speed * 1 }
      else if pixels_difference < 0 then { s with vx := s.base_speed * (-1) }
      else s

/-- One frame of the movement-related car tick tasks, in registration
order: the velocity task (registered first, in `Velocity.__init__`), then
`set_velocity_from_keypresses`, then `move_towards_movement_target`. The
two collision-check tasks run between the first and the second of these
and touch only the crash state, which is modelled separately. -/
def CarState.tick (W H w h : ℚ) (s : CarState) : CarState :=
  CarState.move_towards_movement_target W H w h
    (CarState.set_velocity_from_keypresses (CarState.velocity_tick s))

theorem tick_snaps (W H w h : ℚ) (s : CarState) (fid : ℕ)
    (tp : PercentagePoint)
    (hkeys : s.pressed_directions = [])
    (hvx : s.vx = 0)
    (htarget : s.movement_targets.getLast? = some (fid, tp))
    (hclose : |(tp.resolve W H 0 0).1 -
      ((collision_box s.position W H w h).center).1| ≤ s.base_speed) :
    (CarState.tick W H w h s).position.resolve W H w h =
      ((tp.resolve W H 0 0).1 - w / 2,
        (s.position.resolve W H w h).2 + s.vy) ∧
    (CarState.tick W H w h s).vx = 0 ∧
    (CarState.tick W H w h s).vy = s.vy ∧
    (CarState.tick W H w h s).base_speed = s.base_speed ∧
    (CarState.tick W H w h s).pressed_directions = [] ∧
    (CarState.tick W H w h s).movement_targets = s.movement_targets := by
  obtain ⟨pos, vx, vy, bs, pressed, targets⟩ := s
  simp only at hkeys hvx htarget hclose
  subst hkeys hvx
  rw [collision_box_center] at hclose
  unfold CarState.tick CarState.velocity_tick
    CarState.set_velocity_from_keypresses
    CarState.move_towards_movement_target
  simp only [List.getLast?_nil, htarget, collision_box_center,
    resolve_velocity_on_tick, add_zero, ne_eq, not_true_eq_false,
    if_false, if_pos hclose, resolve_move_to]
  simp [resolve_velocity_on_tick]

/-- C4: with base speed 5, no key pressed and the x velocity at its no-key
value 0, if the most recent movement target is within 5 pixels
(horizontally) of the player center, one tick lands the center exactly
on the target x — not 5 pixels past it — and a second tick leaves it
exactly there. -/
theorem c4_snap_not_overshoot (s : CarState) (W H w h : ℚ) (fid : ℕ)
    (tp : PercentagePoint)
    (hbs : s.base_speed = 5)
    (hkeys : s.pressed_directions = [])
    (hvx : s.vx = 0)
    (htarget : s.movement_targets.getLast? = some (fid, tp))
    (hclose : |(tp.resolve W H 0 0).1 -
      ((collision_box s.position W H w h).center).1| ≤ 5) :
    ((collision_box (CarState.tick W H w h s).position W H w h).center).1 =
      (tp.resolve W H 0 0).1 ∧
    ((collision_box
        (CarState.tick W H w h (CarState.tick W H w h s)).position
        W H w h).center).1 = (tp.resolve W H 0 0).1 := by
  have h1 := tick_snaps W H w h s fid tp hkeys hvx htarget
    (by rw [hbs]; exact hclose)
  have hc1 : ((collision_box (CarState.tick W H w h s).position
      W H w h).center).1 = (tp.resolve W H 0 0).1 := by
    rw [collision_box_center, h1.1]
    ring
  have hclose2 : |(tp.resolve W H 0 0).1 -
      ((collision_box (CarState.tick W H w h s).position W H w h).center).1|
        ≤ (CarState.tick W H w h s).base_speed := by
    rw [hc1, sub_self, abs_zero, h1.2.2.2.1, hbs]
    norm_num
  have h2 := tick_snaps W H w h (CarState.tick W H w h s) fid tp
    h1.2.2.2.2.1 h1.2.1 (by rw [h1.2.2.2.2.2]; exact htarget) hclose2
  refine ⟨hc1, ?_⟩
  rw [collision_box_center, h2.1]
  ring

/-- C4 witness: in a 300×300 window, a 40×40 car at top-left (100, 200)
has center x 120; a pointer target at 41% of the window width resolves to
x = 123, three pixels to the right, and one tick snaps the center exactly
onto 123, where it stays on the next tick. -/
theorem c4_witness :
    (CarState.mk (PixelsPoint.mk 100 200 Corner.topLeft) 0 0 5 []
        [(0, PercentagePoint.mk (41/100) 0 Corner.topLeft)]).base_speed
      = 5 ∧
    |((PercentagePoint.mk (41/100) 0 Corner.topLeft).resolve 300 300 0 0).1 -
      ((collision_box (PixelsPoint.mk 100 200 Corner.topLeft)
        300 300 40 40).center).1| ≤ 5 ∧
    ((collision_box
        (CarState.tick 300 300 40 40
          (CarState.mk (PixelsPoint.mk 100 200 Corner.topLeft) 0 0 5 []
            [(0, PercentagePoint.mk (41/100) 0 Corner.topLeft)])).position
        300 300 40 40).center).1 =
      ((PercentagePoint.mk (41/100) 0 Corner.topLeft).resolve 300 300 0 0).1 := by
  have hclose : |((PercentagePoint.mk (41/100) 0 Corner.topLeft).resolve
      300 300 0 0).1 -
      ((collision_box (PixelsPoint.mk 100 200 Corner.topLeft)
        300 300 40 40).center).1| ≤ 5 := by
    rw [collision_box_center]
    simp [PercentagePoint.resolve, PixelsPoint.resolve, Corner.value]
    norm_num
  exact ⟨rfl, hclose,
    (c4_snap_not_overshoot
      (CarState.mk (PixelsPoint.mk 100 200 Corner.topLeft) 0 0 5 []
        [(0, PercentagePoint.mk (41/100) 0 Corner.topLeft)])
      300 300 40 40 0 (PercentagePoint.mk (41/100) 0 Corner.topLeft)
      rfl rfl rfl rfl hclose).1⟩

/-- C7: whenever the pressed-directions stack is non-empty and a movement
target is active, after the velocity tick tasks of the frame the x velocity is
the key-derived value (base speed times -1 for left, +1 for right, from
the most recent press), and the position is exactly what the velocity
task alone produced — the pointer-follow logic neither snaps nor steers. -/
theorem c7_key_overrides_pointer (s : CarState) (W H w h : ℚ)
    (d : Direction)
    (hkey : s.pressed_directions.getLast? = some d)
    (htargets : s.movement_targets ≠ []) :
    (CarState.tick W H w h s).vx =
      (match d with
        | Direction.left => s.base_speed * (-1)
        | Direction.right => s.base_speed * 1) ∧
    (CarState.tick W H w h s).position =
      velocity_on_tick s.position s.vx s.vy := by
  have hne : s.pressed_directions ≠ [] := by
    intro hnil
    rw [hnil] at hkey
    exact Option.noConfusion hkey
  cases ht : s.movement_targets.getLast? with
  | none =>
    exact absurd (List.getLast?_eq_none_iff.mp ht) htargets
  | some last_touched =>
    unfold CarState.tick CarState.velocity_tick
      CarState.set_velocity_from_keypresses
      CarState.move_towards_movement_target
    simp only [hkey, ht]
    cases d <;> simp [hne, ht]

/-- C7 witness: with LEFT then RIGHT held (RIGHT most recent) and one
active pointer target, the tick leaves velocity at +5 and the position at
the velocity-task result. -/
theorem c7_witness :
    (CarState.mk (PixelsPoint.mk 100 200 Corner.topLeft) 1 2 5
        [Direction.left, Direction.right]
        [(0, PercentagePoint.mk (1/2) 0 Corner.topLeft)]).pressed_directions.getLast?
      = some Direction.right ∧
    (CarState.mk (PixelsPoint.mk 100 200 Corner.topLeft) 1 2 5
        [Direction.left, Direction.right]
        [(0, PercentagePoint.mk (1/2) 0 Corner.topLeft)]).movement_targets ≠ [] ∧
    (CarState.tick 300 300 40 40
      (CarState.mk (PixelsPoint.mk 100 200 Corner.topLeft) 1 2 5
        [Direction.left, Direction.right]
        [(0, PercentagePoint.mk (1/2) 0 Corner.topLeft)])).vx = 5 * 1 := by
  have h := c7_key_overrides_pointer
    (CarState.mk (PixelsPoint.mk 100 200 Corner.topLeft) 1 2 5
      [Direction.left, Direction.right]
      [(0, PercentagePoint.mk (1/2) 0 Corner.topLeft)])
    300 300 40 40 Direction.right (by rfl) (by simp)
  exact ⟨by rfl, by simp, h.1⟩

end ABitRacey
